import Mathlib

/-!
Verification development for the QSMImport row mapper.

Shallow embedding of the Python sources under app/: the text utilities
(app/utils/text.py), the cell parser (app/utils/parsing.py), the legacy
serialization codec (app/qsm/php_serialize.py) and the LMS task mapper
(app/mappers/lms_task_mapper.py).  Python floats are modelled as rationals
(every numeric literal the mapper meets is decimal, and all arithmetic the
claims touch is exact on dyadic rationals); Python exceptions are modelled
with Except; the log.warning calls of a function are modelled as an extra
list-of-strings component of its result.  String manipulation is modelled
structurally over the character list of the string, so that every
definition evaluates inside the kernel.
-/

set_option maxRecDepth 16000

deriving instance DecidableEq for Except

unseal Rat.add Rat.mul Rat.inv Rat.sub Rat.ofScientific

namespace QSMImport

/-- Python round() on a rational, as used by int(round(x)) in the mapper:
round half to even (banker's rounding). -/
def pyRound (q : ℚ) : ℤ :=
  let f : ℤ := q.floor
  let r : ℚ := q - (f : ℚ)
  if r < 1/2 then f
  else if (1 : ℚ)/2 < r then f + 1
  else if f % 2 = 0 then f else f + 1

/-- Model of Python str.strip() on a character list: remove leading and
trailing whitespace. -/
def pyStripL (l : List Char) : List Char :=
  ((l.dropWhile Char.isWhitespace).reverse.dropWhile Char.isWhitespace).reverse

/-- Model of Python str.strip() on a string. -/
def pyStrip (s : String) : String :=
  (pyStripL s.toList).asString

/-- Numeric value of a list of decimal digit characters (most significant first). -/
def digitsVal (l : List Char) : ℕ :=
  l.foldl (fun acc c => 10 * acc + (c.toNat - 48)) 0

/-- Models the Python builtin float(s) on plain decimal literals: optional
surrounding whitespace, an optional sign, a mantissa of digits with at most
one decimal point (digits required on at least one side), and an optional
exponent part e/E with optional sign and digits.  The special forms
inf/nan and digit-group underscores, which no spreadsheet cell of this
pipeline uses, are not modelled and parse as failures. -/
def pyFloat (s : String) : Option ℚ :=
  let cs := pyStripL s.toList
  let sign : ℚ := match cs with | '-' :: _ => -1 | _ => 1
  let cs := match cs with | '-' :: rest => rest | '+' :: rest => rest | _ => cs
  let mant := match cs.findIdx? (fun c => c == 'e' || c == 'E') with
    | none => cs
    | some i => cs.take i
  let expPart : Option (List Char) := match cs.findIdx? (fun c => c == 'e' || c == 'E') with
    | none => none
    | some i => some (cs.drop (i + 1))
  let ip := match mant.findIdx? (fun c => c == '.') with
    | none => mant
    | some i => mant.take i
  let fp := match mant.findIdx? (fun c => c == '.') with
    | none => ([] : List Char)
    | some i => mant.drop (i + 1)
  if ¬ (ip.all Char.isDigit ∧ fp.all Char.isDigit ∧ (ip ≠ [] ∨ fp ≠ [])) then none
  else
    let m : ℚ := sign * ((digitsVal ip : ℚ) + (digitsVal fp : ℚ) / (10 : ℚ) ^ fp.length)
    match expPart with
    | none => some m
    | some ec =>
      let esign : ℤ := match ec with | '-' :: _ => -1 | _ => 1
      let ed := match ec with | '-' :: rest => rest | '+' :: rest => rest | _ => ec
      if ed = [] ∨ ¬ ed.all Char.isDigit then none
      else some (m * (10 : ℚ) ^ (esign * (digitsVal ed : ℤ)))

/-- Model of Python str.rfind for a non-empty needle, over the character list:
the largest index at which the needle occurs, none when it does not occur. -/
def rfindSub (l pat : List Char) : Option ℕ :=
  ((List.range (l.length + 1)).filter (fun i => pat.isPrefixOf (l.drop i))).getLast?

/-- Model of Python str.startswith over the character lists. -/
def pyStartsWith (s pre : String) : Bool :=
  pre.toList.isPrefixOf s.toList

/-- Model of Python character slicing s[n:]. -/
def pyDrop (s : String) (n : ℕ) : String :=
  (s.toList.drop n).asString

-- app/utils/text.py ----------------------------------------------------------

/-- Embeds normalize of app/utils/text.py: trim, lowercase, collapse
whitespace runs to single spaces.  (Python str.lower also lowercases
non-ASCII letters; Char.toLower is ASCII-only, which the claims never
exercise on the case-mapped part.) -/
def normalize (s : String) : String :=
  let t := (pyStripL s.toList).map Char.toLower
  (List.intercalate [' '] ((t.splitOnP Char.isWhitespace).filter (· ≠ []))).asString

-- app/utils/parsing.py -------------------------------------------------------

/-- Embeds split_lines of app/utils/parsing.py: split the cell into lines,
strip each, and drop the lines that are empty after stripping.  (Python
splitlines treats a \r\n pair as one break; splitting at every \r or \n
only adds empty pieces, which are dropped anyway.) -/
def split_lines (cell : String) : List String :=
  (((cell.toList.splitOnP (fun c => c == '\n' || c == '\r')).map pyStripL).filter
    (· ≠ [])).map List.asString

/-- The two-character delimiter of a variants-block line. -/
def variant_delim : List Char := ['|', '|']

/-- Embeds parse_variant_line of app/utils/parsing.py: split at the
right-most occurrence of the two-character delimiter; no delimiter is a
ValueError; the stripped right-hand side is the point value, with a comma
accepted for the decimal point and an empty right-hand side meaning 0. -/
def parse_variant_line (line : String) : Except String (String × ℚ) :=
  match rfindSub line.toList variant_delim with
  | none => .error ("Строка варианта без ||: " ++ line)
  | some idx =>
    let left := (pyStripL (line.toList.take idx)).asString
    let right := pyStripL (line.toList.drop (idx + 2))
    if right = [] then .ok (left, 0)
    else
      match pyFloat ((right.map (fun c => if c == ',' then '.' else c)).asString) with
      | some v => .ok (left, v)
      | none => .error ("could not convert string to float: " ++ right.asString)

/-- Embeds parse_variants_block of app/utils/parsing.py: parse each
non-blank line, propagating the first failure. -/
def parse_variants_block (block : String) : Except String (List (String × ℚ)) :=
  (split_lines block).mapM parse_variant_line

/-- Embeds parse_correct_list of app/utils/parsing.py: split the cell on
semicolons, strip each token, drop empty tokens. -/
def parse_correct_list (cell : String) : List String :=
  (((cell.toList.splitOn ';').map pyStripL).filter (· ≠ [])).map List.asString

-- app/qsm/php_serialize.py ---------------------------------------------------

/-- Embeds _php_str of app/qsm/php_serialize.py: the length prefix is
len(s.encode("utf-8")), the UTF-8 byte count of the payload. -/
def php_str (s : String) : String :=
  "s:" ++ toString s.utf8ByteSize ++ ":\"" ++ s ++ "\";"

-- app/models/enums.py --------------------------------------------------------

/-- Embeds QuestionType of app/models/enums.py. -/
inductive QuestionType where
  | SC
  | MC
  | SA
  | TA
  | SA_COM
deriving DecidableEq, Repr

-- app/models/question_input.py -----------------------------------------------

/-- Embeds the QuestionInputRow dataclass of app/models/question_input.py
(all fields are strings in the source; the defaults are only a notational
convenience of the embedding). -/
structure QuestionInputRow where
  question_code : String := ""
  course_code : String := ""
  text : String := ""
  variants_and_points : String := ""
  correct_answer : String := ""
  input_link : String := ""
  qtype_code : String := ""
  quiz_title : String := ""
  difficulty_ru : String := ""
  hint : String := ""
  video_url : String := ""
deriving DecidableEq, Repr

-- app/config.py --------------------------------------------------------------

/-- Embeds the import-behavior fields of Settings (app/config.py); the
source declares default_points_short_answer as a float with default 10.0. -/
structure Settings where
  default_points_short_answer : ℚ := 10
  prepend_input_link : Bool := true
  input_link_label : String := "Входные данные"
deriving DecidableEq, Repr

-- app/mappers/lms_task_mapper.py ---------------------------------------------

/-- Embeds the ChoiceOption dataclass of app/mappers/lms_task_mapper.py. -/
structure ChoiceOption where
  id : String
  text : String
  is_correct : Bool
  points : ℚ
deriving DecidableEq, Repr

/-- The letter alphabet indexed for option ids in _parse_choice_options. -/
def letters : List Char := "ABCDEFGHIJKLMNOPQRSTUVWXYZ".toList

/-- The option-building loop of _parse_choice_options: the idx-th parsed
variant gets id letters[idx]; indexing past the 26 letters is Python's
IndexError.  (The None guard of the source on the parsed points is dead
code: parse_variant_line always yields a number.) -/
def assign_option_ids (parsed : List (String × ℚ)) (idx : ℕ) :
    Except String (List ChoiceOption) :=
  match parsed with
  | [] => .ok []
  | (text, pts) :: rest =>
    match letters[idx]? with
    | none => .error "IndexError: string index out of range"
    | some c =>
      match assign_option_ids rest (idx + 1) with
      | .error e => .error e
      | .ok tail => .ok ({ id := c.toString, text := normalize text,
                           is_correct := false, points := pts } :: tail)

/-- Embeds _parse_choice_options of app/mappers/lms_task_mapper.py: parse
the variants block, assign letter ids in parse order, then mark as correct
every option whose normalized text occurs in the normalized correct list,
collecting the correct ids in option order. -/
def parse_choice_options (row : QuestionInputRow) :
    Except String (List ChoiceOption × List String) :=
  match parse_variants_block row.variants_and_points with
  | .error e => .error e
  | .ok parsed =>
    match assign_option_ids parsed 0 with
    | .error e => .error e
    | .ok opts0 =>
      let correct_texts := (parse_correct_list row.correct_answer).map normalize
      let options := opts0.map (fun o =>
        if correct_texts.contains o.text then { o with is_correct := true } else o)
      let correct_ids := (options.filter (fun o => o.is_correct)).map (fun o => o.id)
      .ok (options, correct_ids)

/-- Embeds _build_penalties of app/mappers/lms_task_mapper.py. -/
structure Penalties where
  wrong_answer : ℤ := 0
  missing_answer : ℤ := 0
  extra_wrong_mc : ℤ := 0
deriving DecidableEq, Repr

/-- One accepted short answer: value and score. -/
structure AcceptedAnswer where
  value : String
  score : ℤ
deriving DecidableEq, Repr

/-- Embeds the short_answer dict built by _build_short_answer_rules. -/
structure ShortAnswerRules where
  normalization : List String
  accepted_answers : List AcceptedAnswer
  use_regex : Bool
  regex : Option String
deriving DecidableEq, Repr

/-- One rubric criterion of the text_answer rules. -/
structure RubricItem where
  id : String
  title : String
  max_score : ℤ
deriving DecidableEq, Repr

/-- Embeds the text_answer dict of _build_solution_for_ta. -/
structure TextAnswerRules where
  auto_check : Bool
  rubric : List RubricItem
deriving DecidableEq, Repr

/-- Embeds the SolutionRules dict of app/mappers/lms_task_mapper.py (its
field named after the partial scoring rules, a constant empty list in
every branch of the source, is omitted). -/
structure SolutionRules where
  max_score : ℤ
  scoring_mode : String
  auto_check : Bool
  manual_review_required : Bool
  correct_options : List String
  short_answer : Option ShortAnswerRules
  text_answer : Option TextAnswerRules
  penalties : Penalties
deriving DecidableEq, Repr

/-- Embeds _build_solution_for_choice of app/mappers/lms_task_mapper.py:
when no option has positive points, every correct option's points become 1;
max_score is int(round(sum of points over the correct options)). -/
def build_solution_for_choice (row : QuestionInputRow) (qtype : QuestionType) :
    Except String (SolutionRules × ℤ) :=
  match parse_choice_options row with
  | .error e => .error e
  | .ok (options, correct_ids) =>
    let has_explicit_points := options.any (fun o => decide (0 < o.points))
    let options := if has_explicit_points then options
      else options.map (fun o => if o.is_correct then { o with points := 1 } else o)
    let max_score := pyRound (((options.filter (fun o => o.is_correct)).map
      (fun o => o.points)).sum)
    let scoring_mode := if qtype = QuestionType.SC then "all_or_nothing" else "partial"
    .ok ({ max_score := max_score, scoring_mode := scoring_mode, auto_check := true,
           manual_review_required := false, correct_options := correct_ids,
           short_answer := none, text_answer := none, penalties := {} }, max_score)

/-- What _build_short_answer_rules returns: the source's 5-tuple, plus the
warnings the function records via log.warning (the source records none in
this function, so the warnings component is always empty). -/
structure ShortAnswerBuild where
  rules : ShortAnswerRules
  max_score : ℤ
  scoring_mode : String
  auto_check : Bool
  manual_review_required : Bool
  warnings : List String
deriving DecidableEq, Repr

/-- Embeds _build_short_answer_rules of app/mappers/lms_task_mapper.py.
The settings argument is optional exactly as in the source; getattr with a
missing settings object yields the literal default of 1 point. -/
def build_short_answer_rules (row : QuestionInputRow) (settings : Option Settings) :
    ShortAnswerBuild :=
  let raw := pyStrip row.correct_answer
  let default_score : ℤ := pyRound (match settings with
    | none => 1
    | some s => s.default_points_short_answer)
  let normalization := ["trim", "lower", "collapse_spaces"]
  if raw = "" then
    { rules := { normalization := normalization, accepted_answers := [],
                 use_regex := false, regex := none },
      max_score := default_score, scoring_mode := "all_or_nothing",
      auto_check := false, manual_review_required := true, warnings := [] }
  else if pyStartsWith raw "re:" then
    { rules := { normalization := [], accepted_answers := [],
                 use_regex := true, regex := some (pyStrip (pyDrop raw 3)) },
      max_score := default_score, scoring_mode := "all_or_nothing",
      auto_check := true, manual_review_required := false, warnings := [] }
  else
    let parts := (((raw.toList.splitOn ';').map pyStripL).filter (· ≠ [])).map
      List.asString
    { rules := { normalization := normalization,
                 accepted_answers := parts.map (fun p =>
                   { value := p, score := default_score }),
                 use_regex := false, regex := none },
      max_score := default_score, scoring_mode := "all_or_nothing",
      auto_check := true, manual_review_required := false, warnings := [] }

/-- The text_answer rules of _build_solution_for_ta: manual check with one
content criterion. -/
def ta_text_answer : TextAnswerRules :=
  { auto_check := false,
    rubric := [{ id := "content", title := "Содержание ответа", max_score := 5 }] }

/-- Embeds _build_solution_for_ta of app/mappers/lms_task_mapper.py. -/
def build_solution_for_ta : SolutionRules × ℤ :=
  ({ max_score := 5, scoring_mode := "custom", auto_check := false,
     manual_review_required := true, correct_options := [],
     short_answer := none, text_answer := some ta_text_answer,
     penalties := {} }, 5)

/-- Embeds build_solution_rules of app/mappers/lms_task_mapper.py (the
unknown-type arm of the source is unreachable over the QuestionType
inductive, which mirrors the enum). -/
def build_solution_rules (row : QuestionInputRow) (qtype : QuestionType)
    (settings : Option Settings := none) : Except String SolutionRules :=
  match qtype with
  | .SC | .MC =>
    match build_solution_for_choice row qtype with
    | .error e => .error e
    | .ok (solution, _) => .ok solution
  | .SA | .SA_COM =>
    let b := build_short_answer_rules row settings
    let mrr := if qtype = QuestionType.SA_COM then true else b.manual_review_required
    .ok { max_score := b.max_score, scoring_mode := b.scoring_mode,
          auto_check := b.auto_check, manual_review_required := mrr,
          correct_options := [], short_answer := some b.rules,
          text_answer := none, penalties := {} }
  | .TA => .ok build_solution_for_ta.1

/-- One entry of meta difficulties: the fields the mapper reads (id and
name_ru), plus the code field the meta payload carries, which
map_difficulty_ru_to_lms_id never reads. -/
structure DifficultyEntry where
  id : ℤ
  name_ru : Option String := none
  code : Option String := none
deriving DecidableEq, Repr

/-- Embeds map_difficulty_ru_to_lms_id of app/mappers/lms_task_mapper.py,
with its log.warning call modelled as the returned list of warnings: first
entry whose stripped name_ru equals the stripped label, else the
hard-coded default id 2 with a warning. -/
def map_difficulty_ru_to_lms_id (row : QuestionInputRow)
    (meta_difficulties : List DifficultyEntry) : ℤ × List String :=
  let name := pyStrip row.difficulty_ru
  match meta_difficulties.find? (fun d => pyStrip (d.name_ru.getD "") == name) with
  | some d => (d.id, [])
  | none => (2, ["Не удалось сопоставить сложность " ++ name ++
      ", используем дефолт difficulty_id=2"])

/-- One entry of meta courses: id, course_uid and title. -/
structure CourseEntry where
  id : ℤ
  course_uid : Option String := none
  title : String := ""
deriving DecidableEq, Repr

/-- The ValueError text of map_quiz_title_to_course_id, naming the
unmatched code and the candidate list (the repr quoting of the source's
f-string is dropped in the embedding). -/
def unresolved_course_error (code : String) (meta_courses : List CourseEntry) : String :=
  "Не удалось сопоставить курс по коду " ++ code ++
    " и нельзя выбрать единственный курс из meta: " ++
    ", ".intercalate (meta_courses.map (fun c => toString c.id ++ ":" ++ c.title))

/-- Embeds map_quiz_title_to_course_id of app/mappers/lms_task_mapper.py:
with a non-empty stripped code, the first entry whose stripped course_uid
equals it wins; otherwise a singleton table yields its sole entry, and any
other table is a ValueError naming the code. -/
def map_quiz_title_to_course_id (row : QuestionInputRow)
    (meta_courses : List CourseEntry) : Except String ℤ :=
  let code := pyStrip row.course_code
  let hit := if code ≠ "" then
      meta_courses.find? (fun c => pyStrip (c.course_uid.getD "") == code)
    else none
  match hit with
  | some c => .ok c.id
  | none =>
    match meta_courses with
    | [c] => .ok c.id
    | _ => .error (unresolved_course_error code meta_courses)

/-! ## Lemmas about the embedding helpers -/

theorem pyRound_intCast (n : ℤ) : pyRound (n : ℚ) = n := by
  have hfl : ((n : ℚ)).floor = n := by
    have h1 : n ≤ Rat.floor (n : ℚ) := Rat.le_floor.mpr (le_refl _)
    have h2 : Rat.floor (n : ℚ) ≤ n := by
      have h := Rat.le_floor.mp (le_refl (Rat.floor (n : ℚ)))
      exact_mod_cast h
    exact le_antisymm h2 h1
  simp only [pyRound, hfl]
  norm_num

theorem pyRound_natCast (k : ℕ) : pyRound (k : ℚ) = k := by
  have h : ((k : ℤ) : ℚ) = (k : ℚ) := by push_cast; ring
  rw [← h, pyRound_intCast]

theorem pyRound_den_one {q : ℚ} (h : q.den = 1) : (pyRound q : ℚ) = q := by
  have hq : ((q.num : ℚ)) = q := (Rat.den_eq_one_iff q).mp h
  calc (pyRound q : ℚ) = (pyRound ((q.num : ℚ)) : ℚ) := by rw [hq]
    _ = ((q.num : ℤ) : ℚ) := by rw [pyRound_intCast]
    _ = q := hq

theorem infix_of_rfindSub_some {l pat : List Char} {i : ℕ}
    (h : rfindSub l pat = some i) : pat <:+: l := by
  unfold rfindSub at h
  have hmem := List.mem_of_getLast?_eq_some h
  have hpref : pat.isPrefixOf (l.drop i) = true := (List.mem_filter.mp hmem).2
  obtain ⟨t, ht⟩ := List.isPrefixOf_iff_prefix.mp hpref
  exact ⟨l.take i, t, by rw [List.append_assoc, ht, List.take_append_drop]⟩

/-! ## C2: the codec's string length prefix counts UTF-8 bytes -/

/-- C2: for every string payload the codec emits s:(byte length):"payload";
where the length is the UTF-8 byte count, not the character count; the
4-character Cyrillic string тест takes 8 bytes and encodes with prefix 8. -/
theorem C2_php_string_length_is_utf8_bytes :
    (∀ s : String, php_str s =
      "s:" ++ toString s.utf8ByteSize ++ ":\"" ++ s ++ "\";") ∧
    php_str "тест" = "s:8:\"тест\";" ∧
    "тест".utf8ByteSize = 8 ∧ "тест".length = 4 :=
  ⟨fun _ => rfl, by rfl, by rfl, by rfl⟩

/-! ## C8: parsing of one variants-block line -/

/-- C8: a variant line is split at the right-most delimiter occurrence, a
line with no delimiter fails to parse (the embedded ValueError), an empty
right-hand side yields 0 points, a decimal comma is accepted, and a
non-numeric right-hand side fails; Paris||2 parses to (Paris, 2) and
Paris alone is an error. -/
theorem C8_variant_line_parsing :
    (∀ line : String, ¬ (variant_delim <:+: line.toList) →
      (parse_variant_line line).isOk = false) ∧
    parse_variant_line "Paris||2" = .ok ("Paris", 2) ∧
    parse_variant_line "Paris" = .error ("Строка варианта без ||: Paris") ∧
    parse_variant_line "a||b||2" = .ok ("a||b", 2) ∧
    parse_variant_line "Paris||" = .ok ("Paris", 0) ∧
    parse_variant_line "Paris||0,5" = .ok ("Paris", 1/2) ∧
    (parse_variant_line "Paris||abc").isOk = false := by
  refine ⟨?_, by decide, by decide, by decide, by decide, by decide, by decide⟩
  intro line hinf
  cases h : rfindSub line.toList variant_delim with
  | none => unfold parse_variant_line; rw [h]; rfl
  | some i => exact absurd (infix_of_rfindSub_some h) hinf

/-! ## Lemmas about choice option construction -/

theorem mark_preserves_id (ts : List String) (o : ChoiceOption) :
    (if ts.contains o.text then { o with is_correct := true } else o).id = o.id := by
  split <;> rfl

theorem map_id_after_mark (l : List ChoiceOption) (ts : List String) :
    ((l.map (fun o => if ts.contains o.text then { o with is_correct := true } else o)).map
      (fun o => o.id)) = l.map (fun o => o.id) := by
  rw [List.map_map]
  exact List.map_congr_left (fun a _ => mark_preserves_id ts a)

theorem sum_points_after_substitution (l : List ChoiceOption) :
    (((l.map (fun o => if o.is_correct then { o with points := 1 } else o)).filter
      (fun o => o.is_correct)).map (fun o => o.points)).sum =
      ((l.filter (fun o => o.is_correct)).length : ℚ) := by
  induction l with
  | nil => simp
  | cons a t ih =>
    by_cases h : a.is_correct
    · simp [h, ih]
      ring
    · simp [h, ih]

theorem parse_choice_options_ok {row : QuestionInputRow}
    {opts : List ChoiceOption} {ids : List String}
    (hp : parse_choice_options row = .ok (opts, ids)) :
    ∃ parsed opts0,
      parse_variants_block row.variants_and_points = .ok parsed ∧
      assign_option_ids parsed 0 = .ok opts0 ∧
      opts = opts0.map (fun o =>
        if ((parse_correct_list row.correct_answer).map normalize).contains o.text
        then { o with is_correct := true } else o) ∧
      ids = (opts.filter (fun o => o.is_correct)).map (fun o => o.id) := by
  unfold parse_choice_options at hp
  split at hp
  · exact absurd hp (by simp)
  · split at hp
    · exact absurd hp (by simp)
    · simp only [Except.ok.injEq, Prod.mk.injEq] at hp
      obtain ⟨h3, h4⟩ := hp
      subst h3
      subst h4
      refine ⟨_, _, by assumption, by assumption, rfl, rfl⟩

theorem assign_option_ids_spec (parsed : List (String × ℚ)) :
    ∀ (idx : ℕ) (res : List ChoiceOption),
      assign_option_ids parsed idx = .ok res →
      res.map (fun o => o.id) =
        ((letters.drop idx).take parsed.length).map Char.toString := by
  induction parsed with
  | nil =>
    intro idx res h
    simp only [assign_option_ids, Except.ok.injEq] at h
    subst h
    simp
  | cons p rest ih =>
    intro idx res h
    obtain ⟨text, pts⟩ := p
    simp only [assign_option_ids] at h
    split at h
    · exact absurd h (by simp)
    · rename_i c hL
      split at h
      · exact absurd h (by simp)
      · rename_i tail hrec
        simp only [Except.ok.injEq] at h
        subst h
        obtain ⟨hidx, hc⟩ := List.getElem?_eq_some_iff.mp hL
        have hdrop : letters.drop idx = c :: letters.drop (idx + 1) := by
          rw [← hc]
          exact (List.getElem_cons_drop letters idx hidx).symm
        rw [hdrop]
        simp [ih (idx + 1) tail hrec]

theorem char_toString_injective : Function.Injective Char.toString := by
  intro a b h
  have hd : (Char.toString a).data = (Char.toString b).data := congrArg String.data h
  have hl : [a] = [b] := hd
  injection hl

/-! ## C1: the zero-point substitution for correct options -/

/-- C1 counterexample row: option A has declared points 2, option B has
declared points 0 and both are correct. -/
def rowC1 : QuestionInputRow :=
  { variants_and_points := "A||2\nB||", correct_answer := "a;b" }

/-- C1 as stated is false: in rowC1 the correct option B has declared
points exactly 0, yet its effective value stays 0 (the substitution is
skipped because option A has positive points), so the computed max score
is 2 and not the 3 a per-option substitution would give. -/
theorem C1_zero_point_substitution_counterexample :
    parse_choice_options rowC1 =
      .ok ([{ id := "A", text := "a", is_correct := true, points := 2 },
            { id := "B", text := "b", is_correct := true, points := 0 }], ["A", "B"]) ∧
    (build_solution_for_choice rowC1 QuestionType.SC).map (fun p => p.2) = .ok 2 ∧
    (build_solution_for_choice rowC1 QuestionType.SC).map (fun p => p.2) ≠ .ok 3 :=
  ⟨by decide, by decide, by decide⟩

/-- C1 (amended): the substitution of 1 for correct options applies only
when no option of the row has positive declared points; in that case every
correct option's effective value is 1 and the max score equals the count of
correct options. -/
theorem C1_unpointed_row_max_score_is_correct_count
    (row : QuestionInputRow) (qtype : QuestionType) (opts : List ChoiceOption)
    (ids : List String) (sol : SolutionRules) (ms : ℤ)
    (hp : parse_choice_options row = .ok (opts, ids))
    (hb : build_solution_for_choice row qtype = .ok (sol, ms))
    (hnone : opts.any (fun o => decide (0 < o.points)) = false)
    (_hsome : opts.any (fun o => o.is_correct) = true) :
    ms = ((opts.filter (fun o => o.is_correct)).length : ℤ) ∧ sol.max_score = ms := by
  unfold build_solution_for_choice at hb
  split at hb
  · exact absurd hb (by simp)
  · rename_i options correct_ids heq
    rw [hp] at heq
    simp only [Except.ok.injEq, Prod.mk.injEq] at heq
    obtain ⟨ho, hi⟩ := heq
    subst ho
    subst hi
    simp only [hnone, Bool.false_eq_true, if_false, Except.ok.injEq, Prod.mk.injEq] at hb
    obtain ⟨hsol, hms⟩ := hb
    constructor
    · rw [← hms, sum_points_after_substitution, pyRound_natCast]
    · rw [← hsol]
      exact hms

def rowC1w : QuestionInputRow :=
  { variants_and_points := "Paris||\nLondon||", correct_answer := "paris" }

def optsC1w : List ChoiceOption :=
  [{ id := "A", text := "paris", is_correct := true, points := 0 },
   { id := "B", text := "london", is_correct := false, points := 0 }]

def solC1w : SolutionRules :=
  { max_score := 1, scoring_mode := "all_or_nothing", auto_check := true,
    manual_review_required := false, correct_options := ["A"],
    short_answer := none, text_answer := none, penalties := {} }

/-- C1 witness: a concrete un-pointed row with one correct option; the
amended theorem applies and the max score is 1, the count of correct
options. -/
theorem C1_unpointed_row_max_score_is_correct_count_witness :
    parse_choice_options rowC1w = .ok (optsC1w, ["A"]) ∧
    build_solution_for_choice rowC1w QuestionType.SC = .ok (solC1w, 1) ∧
    (1 : ℤ) = ((optsC1w.filter (fun o => o.is_correct)).length : ℤ) := by
  have hp : parse_choice_options rowC1w = .ok (optsC1w, ["A"]) := by decide
  have hb : build_solution_for_choice rowC1w QuestionType.SC = .ok (solC1w, 1) := by decide
  have h := C1_unpointed_row_max_score_is_correct_count rowC1w QuestionType.SC optsC1w
    ["A"] solC1w 1 hp hb (by decide) (by decide)
  exact ⟨hp, hb, h.1⟩

/-! ## C5: the max score of a choice row -/

/-- C5 counterexample row: a single correct option with fractional
declared points 0.5 (written with the decimal comma of the sheet). -/
def rowC5 : QuestionInputRow :=
  { variants_and_points := "Paris||0,5", correct_answer := "paris" }

/-- C5 as stated is false: in rowC5 the exact sum of effective points over
the correct options is 1/2, but the computed max score is the rounded
integer 0 (int(round(0.5)) rounds half to even). -/
theorem C5_exact_sum_counterexample :
    (build_solution_for_choice rowC5 QuestionType.SC).map (fun p => p.2) = .ok 0 ∧
    (parse_choice_options rowC5).map
      (fun p => ((p.1.filter (fun o => o.is_correct)).map (fun o => o.points)).sum) =
      .ok (1/2) ∧
    ((0 : ℤ) : ℚ) ≠ 1/2 :=
  ⟨by decide, by decide, by decide⟩

/-- C5 (amended): the max score is int(round(sum)) — the half-to-even
rounded integer of the sum of effective points over the correct options
only (options not marked correct are filtered out and contribute
nothing). -/
theorem C5_max_score_is_rounded_sum_over_correct
    (row : QuestionInputRow) (qtype : QuestionType) (opts : List ChoiceOption)
    (ids : List String) (sol : SolutionRules) (ms : ℤ)
    (hp : parse_choice_options row = .ok (opts, ids))
    (hb : build_solution_for_choice row qtype = .ok (sol, ms)) :
    ms = pyRound ((((if opts.any (fun o => decide (0 < o.points)) then opts
        else opts.map (fun o => if o.is_correct then { o with points := 1 } else o)).filter
          (fun o => o.is_correct)).map (fun o => o.points)).sum) ∧
    sol.max_score = ms := by
  unfold build_solution_for_choice at hb
  split at hb
  · exact absurd hb (by simp)
  · rename_i options correct_ids heq
    rw [hp] at heq
    simp only [Except.ok.injEq, Prod.mk.injEq] at heq
    obtain ⟨ho, hi⟩ := heq
    subst ho
    subst hi
    simp only [Except.ok.injEq, Prod.mk.injEq] at hb
    obtain ⟨hsol, hms⟩ := hb
    refine ⟨hms.symm, ?_⟩
    rw [← hsol]
    exact hms

def optsC5 : List ChoiceOption :=
  [{ id := "A", text := "paris", is_correct := true, points := 1/2 }]

def solC5 : SolutionRules :=
  { max_score := 0, scoring_mode := "all_or_nothing", auto_check := true,
    manual_review_required := false, correct_options := ["A"],
    short_answer := none, text_answer := none, penalties := {} }

/-- C5 witness: the amended theorem applied to the concrete fractional
row; the max score 0 is the half-to-even rounding of the sum 1/2. -/
theorem C5_max_score_is_rounded_sum_over_correct_witness :
    build_solution_for_choice rowC5 QuestionType.SC = .ok (solC5, 0) ∧
    (0 : ℤ) = pyRound ((((if optsC5.any (fun o => decide (0 < o.points)) then optsC5
        else optsC5.map (fun o => if o.is_correct then { o with points := 1 } else o)).filter
          (fun o => o.is_correct)).map (fun o => o.points)).sum) := by
  have hp : parse_choice_options rowC5 = .ok (optsC5, ["A"]) := by decide
  have hb : build_solution_for_choice rowC5 QuestionType.SC = .ok (solC5, 0) := by decide
  have h := C5_max_score_is_rounded_sum_over_correct rowC5 QuestionType.SC optsC5
    ["A"] solC5 0 hp hb
  exact ⟨hb, h.1⟩

/-! ## C7: letter ids in parse order, failure past 26 options -/

/-- C7 counterexample row: a variants block of 27 well-formed lines. -/
def rowC7 : QuestionInputRow :=
  { variants_and_points :=
      "a||1\na||1\na||1\na||1\na||1\na||1\na||1\na||1\na||1\na||1\na||1\na||1\na||1\na||1\na||1\na||1\na||1\na||1\na||1\na||1\na||1\na||1\na||1\na||1\na||1\na||1\na||1" }

/-- C7 as stated is false: a variants block with 27 options does not fall
back to a numeric id scheme — parsing the options raises the embedded
IndexError of letters[26]. -/
theorem C7_over_26_options_counterexample :
    (parse_variants_block rowC7.variants_and_points).map (fun l => l.length) = .ok 27 ∧
    parse_choice_options rowC7 = .error "IndexError: string index out of range" ∧
    (parse_choice_options rowC7).isOk = false :=
  ⟨by decide, by decide, by decide⟩

/-- C7 (amended): whenever option parsing succeeds, the option ids are
exactly the first letters of the alphabet in parse order — hence unique
within the row — and the row has at most 26 options; a longer block is an
error, with no numeric opt fallback. -/
theorem C7_option_ids_letters_in_parse_order
    (row : QuestionInputRow) (opts : List ChoiceOption) (ids : List String)
    (hp : parse_choice_options row = .ok (opts, ids)) :
    opts.map (fun o => o.id) = (letters.take opts.length).map Char.toString ∧
    (opts.map (fun o => o.id)).Nodup ∧ opts.length ≤ 26 := by
  obtain ⟨parsed, opts0, h1, h2, h3, h4⟩ := parse_choice_options_ok hp
  have hids := assign_option_ids_spec parsed 0 opts0 h2
  rw [List.drop_zero] at hids
  have hmap : opts.map (fun o => o.id) = (letters.take parsed.length).map Char.toString := by
    rw [h3, map_id_after_mark, hids]
  have hL26 : letters.length = 26 := by rfl
  have hlen : opts.length = min parsed.length 26 := by
    have h := congrArg List.length hmap
    simpa [hL26] using h
  have htake : letters.take parsed.length = letters.take opts.length := by
    rw [List.take_eq_take, hlen, hL26]
    omega
  have hnodupL : letters.Nodup := by decide
  refine ⟨by rw [hmap, htake], ?_, by rw [hlen]; omega⟩
  rw [hmap]
  exact List.Nodup.map char_toString_injective
    (List.Nodup.sublist (List.take_sublist parsed.length letters) hnodupL)

def rowC7w : QuestionInputRow := { variants_and_points := "Paris||1\nLondon||2" }

def optsC7w : List ChoiceOption :=
  [{ id := "A", text := "paris", is_correct := false, points := 1 },
   { id := "B", text := "london", is_correct := false, points := 2 }]

/-- C7 witness: the amended theorem applied to a concrete two-option row;
ids are A, B in parse order, with no duplicates. -/
theorem C7_option_ids_letters_in_parse_order_witness :
    parse_choice_options rowC7w = .ok (optsC7w, []) ∧
    optsC7w.map (fun o => o.id) = (letters.take optsC7w.length).map Char.toString ∧
    (optsC7w.map (fun o => o.id)).Nodup ∧ optsC7w.length ≤ 26 := by
  have hp : parse_choice_options rowC7w = .ok (optsC7w, []) := by decide
  have h := C7_option_ids_letters_in_parse_order rowC7w optsC7w [] hp
  exact ⟨hp, h.1, h.2.1, h.2.2⟩

/-! ## Short-answer building: C3, C9, C10 -/

theorem build_short_answer_rules_regex_branch
    (row : QuestionInputRow) (settings : Option Settings) (rest : String)
    (h : pyStrip row.correct_answer = "re:" ++ rest) :
    build_short_answer_rules row settings =
      { rules := { normalization := [], accepted_answers := [], use_regex := true,
                   regex := some (pyStrip rest) },
        max_score := pyRound (match settings with
          | none => 1
          | some s => s.default_points_short_answer),
        scoring_mode := "all_or_nothing", auto_check := true,
        manual_review_required := false, warnings := [] } := by
  have hdata : ("re:" ++ rest).data = 'r' :: 'e' :: ':' :: rest.data := by
    rw [String.data_append]
    rfl
  have hne : ("re:" ++ rest) ≠ "" := by
    intro he
    rw [he] at hdata
    have hnil : ("" : String).data = [] := rfl
    rw [hnil] at hdata
    exact List.noConfusion hdata
  have hstarts : pyStartsWith ("re:" ++ rest) "re:" = true := by
    unfold pyStartsWith
    exact List.isPrefixOf_iff_prefix.mpr ⟨rest.toList, (String.data_append "re:" rest).symm⟩
  have hdrop : pyDrop ("re:" ++ rest) 3 = rest := by
    unfold pyDrop
    rw [show ("re:" ++ rest).toList = 'r' :: 'e' :: ':' :: rest.toList from hdata]
    exact String.asString_toList rest
  simp only [build_short_answer_rules, h]
  rw [if_neg hne, if_pos hstarts, hdrop]

/-- C3 counterexample row: the malformed regex candidate of the spec. -/
def rowC3 : QuestionInputRow := { correct_answer := "re:(unclosed" }

/-- C3 as stated is false: the invalid-regex candidate re:(unclosed is not
dropped and no warning is recorded — the mapper keeps the unvalidated
pattern with regex matching enabled and records zero warnings, where the
claim asks for exactly one. -/
theorem C3_invalid_regex_warning_counterexample :
    build_short_answer_rules rowC3 none =
      { rules := { normalization := [], accepted_answers := [], use_regex := true,
                   regex := some "(unclosed" },
        max_score := 1, scoring_mode := "all_or_nothing", auto_check := true,
        manual_review_required := false, warnings := [] } ∧
    (build_short_answer_rules rowC3 none).warnings.length = 0 ∧
    (build_short_answer_rules rowC3 none).rules.regex ≠ none :=
  ⟨by decide, by decide, by decide⟩

/-- C3 (amended): the short-answer builder performs no regex validation:
it records no warning for any input whatsoever, and a correct-answer cell
carrying the regex marker keeps its (unvalidated) pattern — regex mode is
enabled and no candidate is dropped; mapping never fails on it. -/
theorem C3_regex_candidates_kept_without_validation
    (row : QuestionInputRow) (settings : Option Settings) :
    (build_short_answer_rules row settings).warnings = [] ∧
    (∀ rest : String, pyStrip row.correct_answer = "re:" ++ rest →
      (build_short_answer_rules row settings).rules.use_regex = true ∧
      (build_short_answer_rules row settings).rules.regex ≠ none ∧
      (build_short_answer_rules row settings).rules.accepted_answers = []) := by
  constructor
  · simp only [build_short_answer_rules]
    split
    · rfl
    · split <;> rfl
  · intro rest h
    rw [build_short_answer_rules_regex_branch row settings rest h]
    exact ⟨rfl, by simp, rfl⟩

/-- C9: a correct-answer cell whose stripped text is the regex marker
followed by a remainder yields a regex-matched accepted answer whose
pattern is exactly the stripped remainder, with no exact-match candidates
and automatic checking on. -/
theorem C9_regex_prefix_stripped_to_pattern
    (row : QuestionInputRow) (settings : Option Settings) (rest : String)
    (h : pyStrip row.correct_answer = "re:" ++ rest) :
    (build_short_answer_rules row settings).rules.use_regex = true ∧
    (build_short_answer_rules row settings).rules.regex = some (pyStrip rest) ∧
    (build_short_answer_rules row settings).rules.accepted_answers = [] ∧
    (build_short_answer_rules row settings).auto_check = true := by
  rw [build_short_answer_rules_regex_branch row settings rest h]
  exact ⟨rfl, rfl, rfl, rfl⟩

def rowC9 : QuestionInputRow := { correct_answer := "re:^[0-9]+$" }

/-- C9 witness: the concrete cell of the spec yields exactly the pattern
with the marker stripped. -/
theorem C9_regex_prefix_stripped_to_pattern_witness :
    pyStrip rowC9.correct_answer = "re:" ++ "^[0-9]+$" ∧
    (build_short_answer_rules rowC9 none).rules.use_regex = true ∧
    (build_short_answer_rules rowC9 none).rules.regex = some "^[0-9]+$" := by
  have h : pyStrip rowC9.correct_answer = "re:" ++ "^[0-9]+$" := by decide
  have hthm := C9_regex_prefix_stripped_to_pattern rowC9 none "^[0-9]+$" h
  exact ⟨h, hthm.1, hthm.2.1.trans (by decide)⟩

/-- C10 counterexample row: an all-whitespace correct-answer cell. -/
def rowC10 : QuestionInputRow := { correct_answer := "   " }

def settingsC10 : Settings := { default_points_short_answer := 1/2 }

/-- C10 as stated is false for a fractional batch default: with default
point value 0.5 the empty-cell max score is int(round(0.5)) = 0, not
0.5. -/
theorem C10_fractional_default_counterexample :
    (build_solution_rules rowC10 QuestionType.SA (some settingsC10)).map
      (fun sol => sol.max_score) = .ok 0 ∧
    ((0 : ℤ) : ℚ) ≠ settingsC10.default_points_short_answer :=
  ⟨by decide, by decide⟩

/-- C10 (amended): an empty or whitespace-only correct-answer cell of an
SA or SA_COM row never fails: it yields no accepted answers, no regex,
auto_check off, manual review required, and max score int(round(default));
whenever the configured default is a whole number — as the shipped 10.0
is — that rounded score equals the default. -/
theorem C10_empty_short_answer_defaults
    (row : QuestionInputRow) (qtype : QuestionType) (s : Settings)
    (hq : qtype = QuestionType.SA ∨ qtype = QuestionType.SA_COM)
    (h : pyStrip row.correct_answer = "") :
    build_solution_rules row qtype (some s) = .ok
      { max_score := pyRound s.default_points_short_answer,
        scoring_mode := "all_or_nothing", auto_check := false,
        manual_review_required := true, correct_options := [],
        short_answer := some { normalization := ["trim", "lower", "collapse_spaces"],
                               accepted_answers := [], use_regex := false, regex := none },
        text_answer := none, penalties := {} } ∧
    (s.default_points_short_answer.den = 1 →
      ((pyRound s.default_points_short_answer : ℤ) : ℚ) = s.default_points_short_answer) := by
  refine ⟨?_, fun hden => pyRound_den_one hden⟩
  have hb : build_short_answer_rules row (some s) =
      { rules := { normalization := ["trim", "lower", "collapse_spaces"],
                   accepted_answers := [], use_regex := false, regex := none },
        max_score := pyRound s.default_points_short_answer,
        scoring_mode := "all_or_nothing", auto_check := false,
        manual_review_required := true, warnings := [] } := by
    simp [build_short_answer_rules, h]
  rcases hq with hq | hq <;> subst hq <;> simp [build_solution_rules, hb]

def settingsDefault : Settings := {}

/-- C10 witness: the amended theorem at the whitespace-only cell with the
shipped default of 10 points; the max score equals the default. -/
theorem C10_empty_short_answer_defaults_witness :
    pyStrip rowC10.correct_answer = "" ∧
    build_solution_rules rowC10 QuestionType.SA (some settingsDefault) = .ok
      { max_score := 10, scoring_mode := "all_or_nothing", auto_check := false,
        manual_review_required := true, correct_options := [],
        short_answer := some { normalization := ["trim", "lower", "collapse_spaces"],
                               accepted_answers := [], use_regex := false, regex := none },
        text_answer := none, penalties := {} } ∧
    ((10 : ℤ) : ℚ) = settingsDefault.default_points_short_answer := by
  have h : pyStrip rowC10.correct_answer = "" := by decide
  have hthm := C10_empty_short_answer_defaults rowC10 QuestionType.SA settingsDefault
    (Or.inl rfl) h
  refine ⟨h, ?_, ?_⟩
  · rw [hthm.1]
    decide
  · have hd := hthm.2 (by decide)
    rw [show ((10 : ℤ)) = pyRound settingsDefault.default_points_short_answer by decide]
    exact hd

/-! ## C4: course resolution -/

/-- The course-matching test of map_quiz_title_to_course_id: a non-empty
stripped row code equal to the entry's stripped external code. -/
def matches_course_code (row : QuestionInputRow) (c : CourseEntry) : Prop :=
  pyStrip row.course_code ≠ "" ∧ pyStrip (c.course_uid.getD "") = pyStrip row.course_code

def rowC4 : QuestionInputRow := { course_code := "" }

def metaC4 : List CourseEntry :=
  [{ id := 1, course_uid := some "", title := "t1" },
   { id := 2, course_uid := some "x", title := "t2" }]

/-- C4 as stated is false at an empty course code: the first entry's
external code equals the row's code (both empty after stripping), yet
resolution does not return that entry's id 1 — it fails, because the
mapper never matches an empty code against the table. -/
theorem C4_empty_code_match_counterexample :
    pyStrip ((metaC4.headD { id := 0 }).course_uid.getD "") = pyStrip rowC4.course_code ∧
    map_quiz_title_to_course_id rowC4 metaC4 ≠ .ok 1 ∧
    (map_quiz_title_to_course_id rowC4 metaC4).isOk = false :=
  ⟨by decide, by decide, by decide⟩

/-- C4 (amended): course resolution matches only a non-empty stripped row
code against the entries' stripped external codes (an empty row code never
matches, even against an entry with an empty external code); with a match
the first matching entry's id is returned; with no match a singleton table
yields its sole entry's id, and a table with more than one entry fails
with the error naming the unmatched code. -/
theorem C4_course_resolution_cases (row : QuestionInputRow) (meta : List CourseEntry) :
    ((∃ c ∈ meta, matches_course_code row c) →
      ∃ c ∈ meta, matches_course_code row c ∧
        map_quiz_title_to_course_id row meta = .ok c.id) ∧
    ((∀ c ∈ meta, ¬ matches_course_code row c) →
      (∀ c : CourseEntry, meta = [c] → map_quiz_title_to_course_id row meta = .ok c.id) ∧
      (1 < meta.length →
        map_quiz_title_to_course_id row meta =
          .error (unresolved_course_error (pyStrip row.course_code) meta))) := by
  constructor
  · rintro ⟨c, hc, hm⟩
    have hsome : (meta.find?
        (fun e => pyStrip (e.course_uid.getD "") == pyStrip row.course_code)).isSome :=
      List.find?_isSome.mpr ⟨c, hc, by simp [hm.2]⟩
    obtain ⟨e, he⟩ := Option.isSome_iff_exists.mp hsome
    have hbe0 := List.find?_some he
    have hbe : (pyStrip (e.course_uid.getD "") == pyStrip row.course_code) = true := hbe0
    refine ⟨e, List.mem_of_find?_eq_some he, ⟨hm.1, eq_of_beq hbe⟩, ?_⟩
    simp only [map_quiz_title_to_course_id, if_pos hm.1, he]
  · intro hno
    have hhit : (if pyStrip row.course_code ≠ "" then
        meta.find? (fun e => pyStrip (e.course_uid.getD "") == pyStrip row.course_code)
      else none) = none := by
      by_cases hcode : pyStrip row.course_code = ""
      · rw [if_neg (by simp [hcode])]
      · rw [if_pos hcode]
        exact List.find?_eq_none.mpr
          (fun e he hbe => (hno e he) ⟨hcode, eq_of_beq hbe⟩)
    constructor
    · intro c hm
      subst hm
      simp only [map_quiz_title_to_course_id, hhit]
    · intro hlen
      cases meta with
      | nil => simp at hlen
      | cons a t =>
        cases t with
        | nil => simp at hlen
        | cons b t2 =>
          simp only [map_quiz_title_to_course_id]
          rw [hhit]

/-! ## C6: difficulty resolution -/

def rowC6a : QuestionInputRow := { difficulty_ru := "EASY" }

def metaC6a : List DifficultyEntry := [{ id := 7, name_ru := some "easy" }]

def rowC6b : QuestionInputRow := { difficulty_ru := "Неизвестно" }

def metaC6b : List DifficultyEntry :=
  [{ id := 5, name_ru := some "Hard", code := some "Easy" }]

/-- C6 as stated is false twice over: the matching is case-sensitive (the
label EASY does not match the entry named easy, so the hard-coded default
2 comes back instead of the entry's id 7), and there is no intermediate
fallback to the entry whose code equals a default label (the entry with
code Easy and id 5 is ignored — the result is again the hard-coded 2). -/
theorem C6_difficulty_resolution_counterexample :
    (map_difficulty_ru_to_lms_id rowC6a metaC6a).1 = 2 ∧ (2 : ℤ) ≠ 7 ∧
    (map_difficulty_ru_to_lms_id rowC6b metaC6b).1 = 2 ∧ (2 : ℤ) ≠ 5 ∧
    (map_difficulty_ru_to_lms_id rowC6a metaC6a).2.length = 1 :=
  ⟨by decide, by decide, by decide, by decide, by decide⟩

/-- C6 (amended): difficulty resolution matches the stripped label
case-sensitively against each entry's stripped localized name, returning
the first match with no warning; when no entry matches it never fails and
returns the hard-coded default id 2 directly — no lookup by entry code —
recording exactly one warning. -/
theorem C6_difficulty_resolution_fallback
    (row : QuestionInputRow) (meta : List DifficultyEntry) :
    ((∃ d ∈ meta, pyStrip (d.name_ru.getD "") = pyStrip row.difficulty_ru) →
      ∃ d ∈ meta, pyStrip (d.name_ru.getD "") = pyStrip row.difficulty_ru ∧
        map_difficulty_ru_to_lms_id row meta = (d.id, [])) ∧
    ((∀ d ∈ meta, pyStrip (d.name_ru.getD "") ≠ pyStrip row.difficulty_ru) →
      map_difficulty_ru_to_lms_id row meta =
        (2, ["Не удалось сопоставить сложность " ++ pyStrip row.difficulty_ru ++
             ", используем дефолт difficulty_id=2"])) := by
  constructor
  · rintro ⟨d, hd, hm⟩
    have hsome : (meta.find?
        (fun e => pyStrip (e.name_ru.getD "") == pyStrip row.difficulty_ru)).isSome :=
      List.find?_isSome.mpr ⟨d, hd, by simp [hm]⟩
    obtain ⟨e, he⟩ := Option.isSome_iff_exists.mp hsome
    have hbe0 := List.find?_some he
    have hbe : (pyStrip (e.name_ru.getD "") == pyStrip row.difficulty_ru) = true := hbe0
    refine ⟨e, List.mem_of_find?_eq_some he, eq_of_beq hbe, ?_⟩
    simp only [map_difficulty_ru_to_lms_id, he]
  · intro hno
    have hnone : meta.find?
        (fun e => pyStrip (e.name_ru.getD "") == pyStrip row.difficulty_ru) = none :=
      List.find?_eq_none.mpr (fun e he hbe => (hno e he) (eq_of_beq hbe))
    simp only [map_difficulty_ru_to_lms_id, hnone]

end QSMImport
